import Mathlib

/-!
Verification of the minio-js response-processing transformer stages
(`transformers.js`): Concatenator (`getConcater`), ErrorTransformer
(`getErrorTransformer`), SizeLimiter (`getSizeLimiter`) and HashSummer
(`getHashSummer`).

Each Through2 stage is embedded shallowly: a stage run is a fold of its
transform callback over the list of input chunks (each callback step
returns the updated internal state together with the list of output
events it pushed), followed by its flush callback at end-of-stream.
Output events record data pushes, `push(null)` end-of-stream signals,
errors handed to the callback, and `unpipe()` calls.

External collaborators (the XML error-body parser `parseError`, the
Node crypto digests) are parameters of the embedding, per their
documented contracts.
-/

namespace MinioJS

/-- A byte chunk: `Buffer` contents as a list of byte values. -/
abbrev Chunk := List Nat

/-- Models `Buffer.concat(bufs).toString()` on the concatenated bytes:
each byte becomes one character.  The development only relies on the
facts that the empty byte list maps to `""` and that the same bytes map
to the same text. -/
def bufToString (bytes : List Nat) : String :=
  String.mk (bytes.map Char.ofNat)

/-- A JavaScript runtime error value (here only `TypeError` is thrown by
the code under verification). -/
inductive JsError where
  | typeError (message : String)
deriving DecidableEq, Repr

/-- The `parser` argument of `getConcater` as a JavaScript value:
`undef` (absent / `undefined`), `nullV` (`null`), an actual function
(returning `some v` for a truthy result and `none` for a falsy one,
matching Node's callback-error truthiness convention), or some other
non-callable value whose truthiness is recorded. -/
inductive ParserArg (β : Type) where
  | undef
  | nullV
  | fn (f : String → Option β)
  | other (truthy : Bool)

/-- JavaScript truthiness of the parser argument. -/
def ParserArg.truthy : ParserArg β → Bool
  | .undef => false
  | .nullV => false
  | .fn _ => true
  | .other t => t

/-- `isFunction` from `helpers.js`: `typeof arg === 'function'`. -/
def ParserArg.isFunction : ParserArg β → Bool
  | .fn _ => true
  | _ => false

/-- Output events of a Concatenator stage.  `dataBytes` is a push of a
byte buffer, `dataParsed` a push of a parsed value (object mode),
`eos` an end-of-stream signal (`push(null)` or the natural end after the
flush callback succeeds), `fatal` an error handed to the flush callback
(`cb(e)` with truthy `e`), and `thrown` a runtime exception (calling a
non-function as the parser). -/
inductive ConcatEvent (β : Type) where
  | dataBytes (bytes : List Nat)
  | dataParsed (value : β)
  | eos
  | fatal (error : β)
  | thrown (message : String)
deriving DecidableEq, Repr

/-- The state captured by `getConcater`'s closure: the `objectMode`
flag passed to Through2 and the `parser` / `emitError` arguments. -/
structure ConcaterState (β : Type) where
  objectMode : Bool
  parser : ParserArg β
  emitError : Bool

/-- `getConcater(parser, emitError)` up to wiring the callbacks:
validates the parser argument (`if (parser && !isFunction(parser))
throw new TypeError(...)`), sets `objectMode` when the parser is
truthy, and returns the stage state. -/
def getConcater (parser : ParserArg β) (emitError : Bool) :
    Except JsError (ConcaterState β) :=
  if parser.truthy && !parser.isFunction then
    .error (.typeError "parser should be of type \"function\"")
  else
    .ok { objectMode := parser.truthy, parser := parser, emitError := emitError }

/-- `this.push(x)` in object mode: pushing `null` (a falsy parse result)
signals end-of-stream, anything else is a data item. -/
def pushOrEnd : Option β → ConcatEvent β
  | some v => .dataParsed v
  | none => .eos

/-- Calling the parser value: only an actual function can be applied,
anything else throws a runtime `TypeError`. -/
def callParser : ParserArg β → String → Except String (Option β)
  | .fn f, s => .ok (f s)
  | _, _ => .error "parser is not a function"

/-- The Concatenator transform callback:
`function (chunk, enc, cb) { bufs.push(chunk); cb() }` — appends the
chunk to the buffer list and pushes no output. -/
def concaterTransform (bufs : List Chunk) (chunk : Chunk) :
    List Chunk × List (ConcatEvent β) :=
  (bufs ++ [chunk], [])

/-- Feeding a list of chunks through the Concatenator transform,
collecting the buffer list and every event pushed before end-of-stream. -/
def concaterFeed (bufs : List Chunk) :
    List Chunk → List Chunk × List (ConcatEvent β)
  | [] => (bufs, [])
  | c :: cs =>
    let step := concaterTransform (β := β) bufs c
    let rest := concaterFeed step.1 cs
    (rest.1, step.2 ++ rest.2)

/-- The Concatenator flush callback.  With `emitError`: calls
`cb(parser(text))` — a truthy result is a fatal stream error — and then
`this.push(null)`.  Otherwise, when at least one chunk arrived, pushes
`parser(text)` (object mode) or the concatenated buffer, then ends. -/
def concaterFlush (c : ConcaterState β) (bufs : List Chunk) :
    List (ConcatEvent β) :=
  if c.emitError then
    match callParser c.parser (bufToString bufs.flatten) with
    | .error m => [.thrown m]
    | .ok (some e) => [.fatal e, .eos]
    | .ok none => [.eos]
  else if bufs.length ≠ 0 then
    if c.parser.truthy then
      match c.parser with
      | .fn f => [pushOrEnd (f (bufToString bufs.flatten)), .eos]
      | _ => [.thrown "parser is not a function"]
    else
      [.dataBytes bufs.flatten, .eos]
  else
    [.eos]

/-- A complete Concatenator run: feed every chunk, then flush at
end-of-stream. -/
def runConcater (c : ConcaterState β) (chunks : List Chunk) :
    List (ConcatEvent β) :=
  let fed := concaterFeed (β := β) [] chunks
  fed.2 ++ concaterFlush c fed.1

/-- Construct a Concatenator with `getConcater` and, when construction
succeeds, run it on the given chunks. -/
def buildAndRun (parser : ParserArg β) (emitError : Bool)
    (chunks : List Chunk) : Except JsError (List (ConcatEvent β)) :=
  (getConcater parser emitError).map (fun c => runConcater c chunks)

/-- The HTTP response descriptor consumed by `getErrorTransformer`:
`statusCode`, the `headersSent` flag, and the `getHeader` lookup
(`none` models a missing header / `undefined`). -/
structure Response where
  statusCode : Nat
  headersSent : Bool
  getHeader : String → Option String

/-- The `headerInfo` snapshot of `getErrorTransformer`: each field is
read from the response only when `response.headersSent` is true and is
`null` otherwise. -/
structure HeaderInfo where
  amzRequestid : Option String
  amzId2 : Option String
  amzBucketRegion : Option String
deriving DecidableEq, Repr

/-- Lines 93–98 of the source: capture the three `x-amz-*` headers,
guarded by `headersSent`. -/
def headerInfoOf (response : Response) : HeaderInfo :=
  { amzRequestid :=
      if response.headersSent then response.getHeader "x-amz-request-id" else none,
    amzId2 :=
      if response.headersSent then response.getHeader "x-amz-id-2" else none,
    amzBucketRegion :=
      if response.headersSent then response.getHeader "x-amz-bucket-region" else none }

/-- The domain error value built by `getErrorTransformer`: an
`errors.S3Error` carrying `message`, the S3 error `code`, and the three
header-snapshot fields merged in by `_.each(headerInfo, ...)`. -/
structure S3Error where
  message : String
  code : String
  amzRequestid : Option String
  amzId2 : Option String
  amzBucketRegion : Option String
deriving DecidableEq, Repr

/-- Lines 65–88 of the source: the status-code classification of
`getErrorTransformer`, producing the `(code, message)` pair.
The final branch uses the template literal over the status code, i.e.
its decimal string form. -/
def statusClassification (statusCode : Nat) : String × String :=
  if statusCode = 301 then
    ("MovedPermanently", "Moved Permanently")
  else if statusCode = 307 then
    ("TemporaryRedirect", "Are you using the correct endpoint URL?")
  else if statusCode = 403 then
    ("AccessDenied", "Valid and authorized credentials required")
  else if statusCode = 404 then
    ("NotFound", "Not Found")
  else if statusCode = 405 then
    ("MethodNotAllowed", "Method Not Allowed")
  else if statusCode = 501 then
    ("MethodNotAllowed", "Method Not Allowed")
  else
    ("UnknownError", toString statusCode)

/-- The parser closure `getErrorTransformer` hands to `getConcater`:
on an empty body text, builds an `S3Error` from the status-derived code
and message with the header snapshot merged in; otherwise delegates to
the external XML error-body parser `parseError` (from `xml-parsers.js`,
a collaborator passed in as a parameter) and returns its result.  The
result is an object, hence truthy (`some`). -/
def errorTransformerParser (response : Response)
    (parseError : String → HeaderInfo → S3Error) (xmlString : String) :
    Option S3Error :=
  let classified := statusClassification response.statusCode
  let headerInfo := headerInfoOf response
  if xmlString = "" then
    some { message := classified.2, code := classified.1,
           amzRequestid := headerInfo.amzRequestid,
           amzId2 := headerInfo.amzId2,
           amzBucketRegion := headerInfo.amzBucketRegion }
  else
    some (parseError xmlString headerInfo)

/-- `getErrorTransformer(response)`: classify the status code, snapshot
the headers, and delegate to a Concatenator with the parser above and
`emitError = true`. -/
def getErrorTransformer (response : Response)
    (parseError : String → HeaderInfo → S3Error) :
    Except JsError (ConcaterState S3Error) :=
  getConcater (.fn (errorTransformerParser response parseError)) true

/-- Output events of a SizeLimiter stage: data pushes, the two
`unpipe()` calls on the registered upstream producers (`stream` and
`chunker`), end-of-stream, and the `IncorrectSizeError` handed to the
flush callback. -/
inductive LimiterEvent where
  | data (chunk : List Nat)
  | unpipeStream
  | unpipeChunker
  | eos
  | sizeError (message : String)
deriving DecidableEq, Repr

/-- The `IncorrectSizeError` message template of the source. -/
def incorrectSizeMessage (size : Nat) : String :=
  "size of the input stream is not equal to the expected size(" ++ toString size ++ ")"

/-- The SizeLimiter transform callback on one chunk: forwards
`min(chunk.length, sizeRemaining)` bytes (slicing the chunk when it
exceeds the remaining budget), decrements `sizeRemaining`, and when the
budget reaches exactly zero unpipes both producers and pushes `null`.
Returns the new `sizeRemaining` and the pushed events. -/
def sizeLimiterTransform (sizeRemaining : Nat) (chunk : List Nat) :
    Nat × List LimiterEvent :=
  let length := min chunk.length sizeRemaining
  let sliced := if length < chunk.length then chunk.take length else chunk
  let remaining := sizeRemaining - length
  if remaining = 0 then
    (remaining, [.data sliced, .unpipeStream, .unpipeChunker, .eos])
  else
    (remaining, [.data sliced])

/-- Feeding a list of chunks through the SizeLimiter transform. -/
def feedSizeLimiter : Nat → List (List Nat) → Nat × List LimiterEvent
  | remaining, [] => (remaining, [])
  | remaining, c :: cs =>
    let step := sizeLimiterTransform remaining c
    let rest := feedSizeLimiter step.1 cs
    (rest.1, step.2 ++ rest.2)

/-- The SizeLimiter flush callback (upstream-initiated end-of-stream):
fails with an `IncorrectSizeError` naming the expected size when
`sizeRemaining` is not exactly zero, otherwise pushes `null` and
completes normally. -/
def sizeLimiterFlush (size sizeRemaining : Nat) : List LimiterEvent :=
  if sizeRemaining ≠ 0 then
    [.sizeError (incorrectSizeMessage size)]
  else
    [.eos]

/-- A complete SizeLimiter run whose upstream signals completion after
the given chunks. -/
def runSizeLimiter (size : Nat) (chunks : List (List Nat)) :
    List LimiterEvent :=
  let fed := feedSizeLimiter size chunks
  fed.2 ++ sizeLimiterFlush size fed.1

/-- The summary record emitted by HashSummer: the `md5sum` key is always
present; the `sha256sum` key is present (`some`) only when it was set. -/
structure HashData where
  md5sum : String
  sha256sum : Option String
deriving DecidableEq, Repr

/-- Output events of a HashSummer stage. -/
inductive HashEvent where
  | data (record : HashData)
  | eos
deriving DecidableEq, Repr

/-- The two incremental digest accumulators of `getHashSummer`.  Node's
`hash.update` contract makes the digest a function of the concatenation
of all bytes fed to `update`, so each accumulator is embedded as the
byte list accumulated so far, with the actual digest-and-encode
functions as opaque collaborator parameters. -/
structure HashState where
  md5 : List Nat
  sha256 : List Nat
deriving DecidableEq, Repr

/-- The HashSummer transform callback: `md5.update(chunk)` always,
`sha256.update(chunk)` only when not anonymous, and no output pushed. -/
def hashSummerTransform (anonymous : Bool) (st : HashState)
    (chunk : List Nat) : HashState × List HashEvent :=
  ({ md5 := st.md5 ++ chunk,
     sha256 := if !anonymous then st.sha256 ++ chunk else st.sha256 }, [])

/-- Feeding a list of chunks through the HashSummer transform. -/
def feedHashSummer (anonymous : Bool) :
    HashState → List (List Nat) → HashState × List HashEvent
  | st, [] => (st, [])
  | st, c :: cs =>
    let step := hashSummerTransform anonymous st c
    let rest := feedHashSummer anonymous step.1 cs
    (rest.1, step.2 ++ rest.2)

/-- The HashSummer flush callback: builds `{md5sum}` from
`md5.digest('base64')`, adds `sha256sum` from `sha256.digest('hex')`
when not anonymous, pushes the record and then `null`.  `md5base64` and
`sha256hex` are the opaque digest-and-encode collaborators. -/
def hashSummerFlush (anonymous : Bool)
    (md5base64 sha256hex : List Nat → String) (st : HashState) :
    List HashEvent :=
  let record : HashData := { md5sum := md5base64 st.md5, sha256sum := none }
  let record :=
    if !anonymous then { record with sha256sum := some (sha256hex st.sha256) }
    else record
  [.data record, .eos]

/-- A complete HashSummer run: fresh accumulators, feed every chunk,
flush at end-of-stream. -/
def runHashSummer (anonymous : Bool)
    (md5base64 sha256hex : List Nat → String) (chunks : List (List Nat)) :
    List HashEvent :=
  let fed := feedHashSummer anonymous ⟨[], []⟩ chunks
  fed.2 ++ hashSummerFlush anonymous md5base64 sha256hex fed.1

/-! Concrete sample collaborators used by witnesses. -/

/-- A sample 403 response whose headers have been sent. -/
def sampleResponse : Response :=
  { statusCode := 403, headersSent := true,
    getHeader := fun h => if h = "x-amz-request-id" then some "REQ123" else none }

/-- A sample XML error-body parser collaborator. -/
def sampleParseError : String → HeaderInfo → S3Error :=
  fun s hi =>
    { message := s, code := "SampleCode",
      amzRequestid := hi.amzRequestid, amzId2 := hi.amzId2,
      amzBucketRegion := hi.amzBucketRegion }

/-- A sample parser that returns a (truthy) value on every input. -/
def sampleConstParser : String → Option Nat :=
  fun _ => some 7

/-- A sample parser that returns a falsy value on every input. -/
def sampleFalsyParser : String → Option Nat :=
  fun _ => none

/-- A sample digest-and-encode collaborator. -/
def sampleDigest : List Nat → String :=
  fun bytes => toString bytes.length

/-! Helper lemmas shared by the claim theorems. -/

/-- Feeding the Concatenator transform just appends the chunks and
pushes nothing. -/
theorem concaterFeed_eq (bufs chunks : List Chunk) :
    concaterFeed (β := β) bufs chunks = (bufs ++ chunks, []) := by
  induction chunks generalizing bufs with
  | nil => simp [concaterFeed]
  | cons c cs ih => simp [concaterFeed, concaterTransform, ih]

/-- Feeding the HashSummer transform accumulates the concatenation of
the chunks into the active accumulators and pushes nothing. -/
theorem feedHashSummer_eq (anonymous : Bool) (st : HashState)
    (chunks : List (List Nat)) :
    feedHashSummer anonymous st chunks =
      ({ md5 := st.md5 ++ chunks.flatten,
         sha256 := if !anonymous then st.sha256 ++ chunks.flatten else st.sha256 },
       []) := by
  induction chunks generalizing st with
  | nil => cases anonymous <;> simp [feedHashSummer]
  | cons c cs ih =>
    cases anonymous <;>
      simp [feedHashSummer, hashSummerTransform, ih, List.flatten_cons, List.append_assoc]

/-- Converting no bytes gives the empty (falsy) string. -/
theorem bufToString_nil : bufToString [] = "" := rfl

/-! Claim theorems. -/

/-- C1: `getErrorTransformer`'s status-code classification maps 301, 307,
403, 404, 405 and 501 to exactly the listed (kind, message) pairs, and
every other status code to kind `UnknownError` with the decimal string
form of the status code as message. -/
theorem errorTransformer_statusCode_mapping :
    statusClassification 301 = ("MovedPermanently", "Moved Permanently") ∧
    statusClassification 307 = ("TemporaryRedirect", "Are you using the correct endpoint URL?") ∧
    statusClassification 403 = ("AccessDenied", "Valid and authorized credentials required") ∧
    statusClassification 404 = ("NotFound", "Not Found") ∧
    statusClassification 405 = ("MethodNotAllowed", "Method Not Allowed") ∧
    statusClassification 501 = ("MethodNotAllowed", "Method Not Allowed") ∧
    ∀ s : Nat, s ≠ 301 → s ≠ 307 → s ≠ 403 → s ≠ 404 → s ≠ 405 → s ≠ 501 →
      statusClassification s = ("UnknownError", toString s) := by
  refine ⟨rfl, rfl, rfl, rfl, rfl, rfl, ?_⟩
  intro s h₁ h₂ h₃ h₄ h₅ h₆
  simp [statusClassification, h₁, h₂, h₃, h₄, h₅, h₆]

/-- C1 witness: the unmapped status code 418 yields kind `UnknownError`
with message `"418"`. -/
theorem errorTransformer_statusCode_mapping_witness :
    statusClassification 418 = ("UnknownError", "418") :=
  errorTransformer_statusCode_mapping.2.2.2.2.2.2 418
    (by decide) (by decide) (by decide) (by decide) (by decide) (by decide)

/-- C4: with no parser, the Concatenator pushes nothing while chunks
arrive and, at completion on a non-empty chunk sequence, emits exactly
the byte-for-byte concatenation of the chunks in arrival order as a
single output unit followed by end-of-stream. -/
theorem concater_noParser_concatenation (β : Type) (chunks : List Chunk)
    (h : chunks ≠ []) :
    buildAndRun (ParserArg.undef : ParserArg β) false chunks =
      .ok [.dataBytes chunks.flatten, .eos] ∧
    (concaterFeed (β := β) [] chunks).2 = [] := by
  constructor
  · simp [buildAndRun, getConcater, runConcater, concaterFeed_eq, concaterFlush,
      ParserArg.truthy, h, Except.map]
  · simp [concaterFeed_eq]

/-- C4 witness: chunks `[1, 2]` then `[3]` produce the single buffer
`[1, 2, 3]` and then end-of-stream. -/
theorem concater_noParser_concatenation_witness :
    buildAndRun (ParserArg.undef : ParserArg Unit) false [[1, 2], [3]] =
      .ok [.dataBytes [1, 2, 3], .eos] :=
  (concater_noParser_concatenation Unit [[1, 2], [3]] (by decide)).1

/-- C5: on an empty input stream the Concatenator emits nothing with no
parser; emits nothing with a parser and `emitError = false`; and with a
parser and `emitError = true` it still invokes the parser — on the empty
string — and, the parser's return value being truthy, terminates the
stream with that value as a fatal stream error, with end-of-stream
signaled and no data item pushed. -/
theorem concater_empty_input (β : Type) (f : String → Option β) (e : β)
    (h : f "" = some e) :
    buildAndRun (ParserArg.undef : ParserArg β) false [] = .ok [.eos] ∧
    buildAndRun (.fn f) false [] = .ok [.eos] ∧
    buildAndRun (.fn f) true [] = .ok [.fatal e, .eos] := by
  refine ⟨rfl, rfl, ?_⟩
  simp [buildAndRun, getConcater, runConcater, concaterFeed, concaterFlush,
    callParser, ParserArg.truthy, ParserArg.isFunction, Except.map,
    bufToString_nil, h]

/-- C5 witness: a parser returning the truthy value `7` on the empty
string makes the empty-input `emitError` run fail with `7`. -/
theorem concater_empty_input_witness :
    sampleConstParser "" = some 7 ∧
    buildAndRun (.fn sampleConstParser) true [] = .ok [.fatal 7, .eos] :=
  ⟨rfl, (concater_empty_input Nat sampleConstParser 7 rfl).2.2⟩

/-- C9 counterexample: `null` is a non-callable parser argument, yet
constructing a Concatenator with it does not fail — the guard
`parser && !isFunction(parser)` skips every falsy argument — so
`getConcater(null)` succeeds, refuting the claim for falsy
non-callable arguments. -/
theorem getConcater_nullParser_accepted :
    ParserArg.isFunction (ParserArg.nullV : ParserArg Unit) = false ∧
    getConcater (ParserArg.nullV : ParserArg Unit) false =
      .ok { objectMode := false, parser := .nullV, emitError := false } :=
  ⟨rfl, rfl⟩

/-- C9 (amended): constructing a Concatenator with a truthy non-callable
parser argument fails immediately, at construction time, with a
TypeError; falsy non-callable arguments (`null`, `undefined`) are
instead treated as an absent parser. -/
theorem getConcater_truthy_nonFunction_typeError (β : Type)
    (emitError : Bool) (arg : ParserArg β)
    (htruthy : arg.truthy = true) (hfn : arg.isFunction = false) :
    getConcater arg emitError =
      .error (.typeError "parser should be of type \"function\"") := by
  simp [getConcater, htruthy, hfn]

/-- C9 witness: a truthy non-function argument is rejected with the
TypeError at construction. -/
theorem getConcater_truthy_nonFunction_typeError_witness :
    ParserArg.truthy (ParserArg.other true : ParserArg Unit) = true ∧
    ParserArg.isFunction (ParserArg.other true : ParserArg Unit) = false ∧
    getConcater (ParserArg.other true : ParserArg Unit) false =
      .error (.typeError "parser should be of type \"function\"") :=
  ⟨rfl, rfl, getConcater_truthy_nonFunction_typeError Unit false (.other true) rfl rfl⟩

/-- C10: with a parser and `emitError = true`, when the parser applied
to the concatenated body text returns a falsy value, that value is
passed directly as the flush callback's error argument and counts as no
error: the stream terminates normally with end-of-stream, no error and
no data item. -/
theorem concater_falsy_parse_normal_end (β : Type) (f : String → Option β)
    (chunks : List Chunk) (h : f (bufToString chunks.flatten) = none) :
    buildAndRun (.fn f) true chunks = .ok [.eos] := by
  simp [buildAndRun, getConcater, runConcater, concaterFeed_eq, concaterFlush,
    callParser, ParserArg.truthy, ParserArg.isFunction, Except.map, h]

/-- C10 witness: a parser returning a falsy value on the body `[104, 105]`
lets the `emitError` run end with only end-of-stream. -/
theorem concater_falsy_parse_normal_end_witness :
    sampleFalsyParser (bufToString ([[104, 105]] : List Chunk).flatten) = none ∧
    buildAndRun (.fn sampleFalsyParser) true [[104, 105]] = .ok [.eos] :=
  ⟨rfl, concater_falsy_parse_normal_end Nat sampleFalsyParser [[104, 105]] rfl⟩

/-- C2: on each chunk the SizeLimiter forwards exactly
`min(chunk.length, remaining)` bytes — truncating the chunk to that
length when it exceeds the remaining budget — and decrements the budget
by the forwarded length; at the moment the budget reaches exactly zero
it unpipes both registered upstream producers and signals end-of-stream
downstream.  With size 5 and chunks of 3 then 4 bytes, it forwards the
3-byte chunk unmodified, then the first 2 bytes of the second chunk,
then unpipes both producers and ends, having forwarded exactly 5
bytes. -/
theorem sizeLimiter_forwards_min_and_stops (remaining : Nat)
    (chunk : List Nat) :
    sizeLimiterTransform remaining chunk =
      (remaining - min chunk.length remaining,
       .data (chunk.take (min chunk.length remaining)) ::
         (if remaining - min chunk.length remaining = 0 then
            [.unpipeStream, .unpipeChunker, .eos]
          else [])) ∧
    feedSizeLimiter 5 [[10, 11, 12], [20, 21, 22, 23]] =
      (0, [.data [10, 11, 12], .data [20, 21],
           .unpipeStream, .unpipeChunker, .eos]) ∧
    ([[10, 11, 12], [20, 21]] : List (List Nat)).flatten.length = 5 := by
  refine ⟨?_, by decide, by decide⟩
  have hc : (if min chunk.length remaining < chunk.length
        then chunk.take (min chunk.length remaining) else chunk) =
      chunk.take (min chunk.length remaining) := by
    split
    · rfl
    · next h =>
      have hm : min chunk.length remaining = chunk.length :=
        le_antisymm (Nat.min_le_left _ _) (Nat.le_of_not_lt h)
      rw [hm, List.take_length]
  simp only [sizeLimiterTransform, hc]
  split_ifs <;> simp

/-- C7: at upstream-initiated stream completion the SizeLimiter fails
with a size-mismatch error whose message names the expected size
whenever the remaining budget is not exactly zero, and signals normal
end-of-stream with no error when it is; with size 10 and only 7 bytes
delivered, the run fails with the size-mismatch message referencing
"10". -/
theorem sizeLimiter_completion_mismatch (size remaining : Nat) :
    (remaining ≠ 0 → sizeLimiterFlush size remaining =
      [.sizeError ("size of the input stream is not equal to the expected size("
        ++ toString size ++ ")")]) ∧
    (remaining = 0 → sizeLimiterFlush size remaining = [.eos]) ∧
    runSizeLimiter 10 [[1, 2, 3, 4, 5, 6, 7]] =
      [.data [1, 2, 3, 4, 5, 6, 7],
       .sizeError "size of the input stream is not equal to the expected size(10)"] := by
  refine ⟨?_, ?_, by decide⟩
  · intro h
    simp [sizeLimiterFlush, incorrectSizeMessage, h]
  · intro h
    simp [sizeLimiterFlush, h]

/-- C7 witness: size 10 with a remaining budget of 3 fails with the
message naming 10, while a zero remaining budget ends normally. -/
theorem sizeLimiter_completion_mismatch_witness :
    sizeLimiterFlush 10 3 =
      [.sizeError ("size of the input stream is not equal to the expected size("
        ++ toString 10 ++ ")")] ∧
    sizeLimiterFlush 10 0 = [.eos] :=
  ⟨(sizeLimiter_completion_mismatch 10 3).1 (by decide),
   (sizeLimiter_completion_mismatch 10 0).2.1 rfl⟩

/-- C3: `getErrorTransformer` delegates to a Concatenator with
`emitError = true` whose parser, on an empty body text, builds the
error record directly from the status-derived kind and message with the
three header-snapshot fields merged in — each read from the response
only when `headersSent` is true and recorded as `null` otherwise — and,
on a non-empty body text, returns exactly the external XML error-body
parser's result on the body text and the header snapshot, not the
generic status message. -/
theorem errorTransformer_parser_delegation (response : Response)
    (parseError : String → HeaderInfo → S3Error) :
    getErrorTransformer response parseError =
      .ok { objectMode := true,
            parser := .fn (errorTransformerParser response parseError),
            emitError := true } ∧
    errorTransformerParser response parseError "" =
      some { message := (statusClassification response.statusCode).2,
             code := (statusClassification response.statusCode).1,
             amzRequestid :=
               if response.headersSent then response.getHeader "x-amz-request-id" else none,
             amzId2 :=
               if response.headersSent then response.getHeader "x-amz-id-2" else none,
             amzBucketRegion :=
               if response.headersSent then response.getHeader "x-amz-bucket-region" else none } ∧
    ∀ xmlString, xmlString ≠ "" →
      errorTransformerParser response parseError xmlString =
        some (parseError xmlString (headerInfoOf response)) := by
  refine ⟨rfl, ?_, ?_⟩
  · simp [errorTransformerParser, headerInfoOf]
  · intro s hs
    simp [errorTransformerParser, hs]

/-- C3 witness: on the sample 403 response with the non-empty body
`"<Error/>"`, the installed parser returns exactly the external
parser's result. -/
theorem errorTransformer_parser_delegation_witness :
    ("<Error/>" : String) ≠ "" ∧
    errorTransformerParser sampleResponse sampleParseError "<Error/>" =
      some (sampleParseError "<Error/>" (headerInfoOf sampleResponse)) :=
  ⟨by decide,
   (errorTransformer_parser_delegation sampleResponse sampleParseError).2.2
     "<Error/>" (by decide)⟩

/-- C6: the HashSummer summary depends only on the concatenation of the
input bytes, never on chunk boundaries: any two chunkings of the same
total byte sequence yield identical emitted records — the `md5sum`
field, and, when not anonymous, the `sha256sum` field alike. -/
theorem hashSummer_chunking_invariance (anonymous : Bool)
    (md5base64 sha256hex : List Nat → String)
    (c₁ c₂ : List (List Nat)) (h : c₁.flatten = c₂.flatten) :
    runHashSummer anonymous md5base64 sha256hex c₁ =
      runHashSummer anonymous md5base64 sha256hex c₂ := by
  simp [runHashSummer, feedHashSummer_eq, h]

/-- C6 witness: one 10-byte chunk and ten 1-byte chunks of the same
bytes yield identical output. -/
theorem hashSummer_chunking_invariance_witness :
    ([[0, 1, 2, 3, 4, 5, 6, 7, 8, 9]] : List (List Nat)).flatten =
      ([[0], [1], [2], [3], [4], [5], [6], [7], [8], [9]] : List (List Nat)).flatten ∧
    runHashSummer false sampleDigest sampleDigest
        [[0, 1, 2, 3, 4, 5, 6, 7, 8, 9]] =
      runHashSummer false sampleDigest sampleDigest
        [[0], [1], [2], [3], [4], [5], [6], [7], [8], [9]] :=
  ⟨by decide,
   hashSummer_chunking_invariance false sampleDigest sampleDigest _ _ (by decide)⟩

/-- C8: the HashSummer pushes nothing while chunks arrive and, at
stream completion, emits exactly one summary record followed by
end-of-stream: the record's `md5sum` is the base64-encoded primary
digest of all bytes seen, and its `sha256sum` — the hex-encoded
secondary digest — is present if and only if `anonymous` is false. -/
theorem hashSummer_single_summary (anonymous : Bool)
    (md5base64 sha256hex : List Nat → String) (chunks : List (List Nat)) :
    runHashSummer anonymous md5base64 sha256hex chunks =
      [.data { md5sum := md5base64 chunks.flatten,
               sha256sum :=
                 if anonymous then none else some (sha256hex chunks.flatten) },
       .eos] ∧
    (feedHashSummer anonymous ⟨[], []⟩ chunks).2 = [] := by
  constructor
  · cases anonymous <;> simp [runHashSummer, feedHashSummer_eq, hashSummerFlush]
  · simp [feedHashSummer_eq]

end MinioJS
